import Mathlib

/-!
Shallow embedding of the PostgreSQL-backed goal progress repository
(pkg/repository, PostgresGoalRepository) of extend-challenge-common.

The durable table user_goal_progress (one row per (user_id, goal_id)) is
modelled as a function from keys to optional rows.  Timestamps are natural
numbers (seconds since epoch, UTC); DATE(ts AT TIME ZONE 'UTC') becomes
division by 86400.  Each SQL statement is modelled as a pure function on the
store; statements that can fail return the untouched store paired with an
optional error, mirroring statement atomicity (an erroring statement mutates
nothing).  Single-row statements that only fail on transport errors are
modelled as total functions on the store.
-/

/-- Goal status values allowed by the check_status constraint:
not_started, in_progress, completed, claimed. -/
inductive GoalStatus where
  | notStarted
  | inProgress
  | completed
  | claimed
deriving DecidableEq, Repr

/-- One row of user_goal_progress.  The key (user_id, goal_id) is kept
outside the row, in the store. -/
structure ProgressRow where
  challengeID : String
  nspace : String
  progress : Int
  status : GoalStatus
  completedAt : Option Nat
  claimedAt : Option Nat
  createdAt : Nat
  updatedAt : Nat
  isActive : Bool
  assignedAt : Option Nat
  expiresAt : Option Nat
deriving DecidableEq, Repr

/-- The fields of domain.UserGoalProgress that the modelled write paths read.
UpsertProgress and the batch upserts read userID..completedAt; UpsertGoalActive
additionally reads isActive and assignedAt. -/
structure UserGoalProgress where
  userID : String
  goalID : String
  challengeID : String
  nspace : String
  progress : Int
  status : GoalStatus
  completedAt : Option Nat
  isActive : Bool
  assignedAt : Option Nat
deriving DecidableEq, Repr

/-- repository.ProgressIncrement: one increment request for BatchIncrementProgress. -/
structure ProgressIncrement where
  userID : String
  goalID : String
  challengeID : String
  nspace : String
  delta : Int
  targetValue : Int
  isDailyIncrement : Bool
deriving DecidableEq, Repr

/-- Errors the modelled paths can return.
batchSizeExceeded models the fmt.Errorf return of BatchUpsertProgress when the
batch is over 9000 rows; onConflictRowTwice models the PostgreSQL error raised
when one INSERT .. ON CONFLICT statement would touch the same key twice
(surfaced through errors.ErrDatabaseError); goalNotCompleted models
errors.ErrGoalNotCompleted, the single claim-precondition error kind. -/
inductive RepoError where
  | batchSizeExceeded (n : Nat)
  | onConflictRowTwice
  | goalNotCompleted (goalID : String)
deriving DecidableEq, Repr

/-- The store: user_goal_progress keyed by (user_id, goal_id). -/
def Store : Type := String × String → Option ProgressRow

/-- DATE(ts AT TIME ZONE 'UTC') for an epoch-seconds timestamp. -/
def dateUTC (t : Nat) : Nat := t / 86400

/-- True when the list of keys contains a repeated key. -/
def hasDupKeys : List (String × String) → Bool
  | [] => false
  | k :: ks => ks.contains k || hasDupKeys ks

/-- Key of an upsert record. -/
def upsertKey (u : UserGoalProgress) : String × String := (u.userID, u.goalID)

/-- Key of an increment request. -/
def incKey (i : ProgressIncrement) : String × String := (i.userID, i.goalID)

/-- Row-level semantics of the upsert statement
INSERT .. ON CONFLICT (user_id, goal_id) DO UPDATE SET progress, status,
completed_at, updated_at = NOW() WHERE user_goal_progress.status != claimed.
A missing row is inserted with the supplied values and column defaults
(claimed_at NULL, created_at NOW(), is_active true, assigned_at NULL,
expires_at NULL); a claimed row is left untouched; any other row has
progress, status and completed_at overwritten and updated_at refreshed. -/
def upsertMergeRow (now : Nat) (u : UserGoalProgress) : Option ProgressRow → ProgressRow
  | none =>
    { challengeID := u.challengeID
      nspace := u.nspace
      progress := u.progress
      status := u.status
      completedAt := u.completedAt
      claimedAt := none
      createdAt := now
      updatedAt := now
      isActive := true
      assignedAt := none
      expiresAt := none }
  | some r =>
    if r.status = GoalStatus.claimed then r
    else { r with progress := u.progress, status := u.status,
                  completedAt := u.completedAt, updatedAt := now }

/-- Effect of one upsert tuple on the store. -/
def applyUpsert (now : Nat) (s : Store) (u : UserGoalProgress) : Store :=
  fun q => if q = upsertKey u then some (upsertMergeRow now u (s q)) else s q

/-- PostgresGoalRepository.BatchUpsertProgress: empty batch returns nil without
touching the store; a batch over 9000 rows is rejected (PostgreSQL 65535
parameter limit, 7 parameters per row); otherwise one multi-row
INSERT .. ON CONFLICT applies every tuple.  A batch containing the same
(user_id, goal_id) twice makes the single statement fail. -/
def BatchUpsertProgress (s : Store) (updates : List UserGoalProgress) (now : Nat) :
    Store × Option RepoError :=
  if updates.isEmpty then (s, none)
  else if updates.length > 9000 then (s, some (RepoError.batchSizeExceeded updates.length))
  else if hasDupKeys (updates.map upsertKey) then (s, some RepoError.onConflictRowTwice)
  else (updates.foldl (applyUpsert now) s, none)

/-- One row of the transaction-scoped staging table temp_user_goal_progress. -/
structure TempProgressRow where
  userID : String
  goalID : String
  challengeID : String
  nspace : String
  progress : Int
  status : GoalStatus
  completedAt : Option Nat
  updatedAt : Nat
deriving DecidableEq, Repr

/-- COPY of one update into the staging table (Step 3 of
BatchUpsertProgressWithCOPY).  The staged updated_at is the Go-side clock;
the merge statement ignores it and uses NOW(). -/
def copyToTemp (goNow : Nat) (u : UserGoalProgress) : TempProgressRow :=
  { userID := u.userID
    goalID := u.goalID
    challengeID := u.challengeID
    nspace := u.nspace
    progress := u.progress
    status := u.status
    completedAt := u.completedAt
    updatedAt := goNow }

/-- Row-level semantics of the merge statement (Step 5 of
BatchUpsertProgressWithCOPY): INSERT .. SELECT .. FROM temp_user_goal_progress
ON CONFLICT DO UPDATE .. WHERE user_goal_progress.status != claimed. -/
def tempMergeRow (now : Nat) (t : TempProgressRow) : Option ProgressRow → ProgressRow
  | none =>
    { challengeID := t.challengeID
      nspace := t.nspace
      progress := t.progress
      status := t.status
      completedAt := t.completedAt
      claimedAt := none
      createdAt := now
      updatedAt := now
      isActive := true
      assignedAt := none
      expiresAt := none }
  | some r =>
    if r.status = GoalStatus.claimed then r
    else { r with progress := t.progress, status := t.status,
                  completedAt := t.completedAt, updatedAt := now }

/-- Effect of one staged row on the store during the merge. -/
def applyTempMerge (now : Nat) (s : Store) (t : TempProgressRow) : Store :=
  fun q => if q = (t.userID, t.goalID) then some (tempMergeRow now t (s q)) else s q

/-- PostgresGoalRepository.BatchUpsertProgressWithCOPY: empty batch returns nil
without touching the store; otherwise the batch is bulk-loaded into the
transaction-scoped staging table and merged into user_goal_progress by one
set-based statement.  Everything runs in one transaction, so a failing merge
(duplicate key in the batch) leaves the store unchanged. -/
def BatchUpsertProgressWithCOPY (s : Store) (updates : List UserGoalProgress) (now : Nat) :
    Store × Option RepoError :=
  if updates.isEmpty then (s, none)
  else
    let temp := updates.map (copyToTemp now)
    if hasDupKeys (temp.map fun t => (t.userID, t.goalID)) then
      (s, some RepoError.onConflictRowTwice)
    else (temp.foldl (applyTempMerge now) s, none)

/-- PostgresGoalRepository.UpsertProgress: single-row variant of the upsert. -/
def UpsertProgress (s : Store) (u : UserGoalProgress) (now : Nat) : Store :=
  applyUpsert now s u

/-- Row-level semantics of incrementProgressRegular:
a missing row is inserted with progress = delta, status and completed_at
derived from delta against targetValue; a claimed row is untouched; any other
row gets progress + delta, status rederived, completed_at set only when the
new progress reaches the target and completed_at was NULL. -/
def incRegularRow (challengeID nspace : String) (delta targetValue : Int) (now : Nat) :
    Option ProgressRow → ProgressRow
  | none =>
    { challengeID := challengeID
      nspace := nspace
      progress := delta
      status := if delta ≥ targetValue then GoalStatus.completed else GoalStatus.inProgress
      completedAt := if delta ≥ targetValue then some now else none
      claimedAt := none
      createdAt := now
      updatedAt := now
      isActive := true
      assignedAt := none
      expiresAt := none }
  | some r =>
    if r.status = GoalStatus.claimed then r
    else
      { r with
        progress := r.progress + delta
        status := if r.progress + delta ≥ targetValue then GoalStatus.completed
                  else GoalStatus.inProgress
        completedAt :=
          if r.progress + delta ≥ targetValue ∧ r.completedAt = none then some now
          else r.completedAt
        updatedAt := now }

/-- PostgresGoalRepository.incrementProgressRegular. -/
def incrementProgressRegular (s : Store) (userID goalID challengeID nspace : String)
    (delta targetValue : Int) (now : Nat) : Store :=
  fun q =>
    if q = (userID, goalID) then
      some (incRegularRow challengeID nspace delta targetValue now (s q))
    else s q

/-- Row-level semantics of incrementProgressDaily.  A missing row is inserted
with progress = 1 (the statement hard-codes initial progress 1 for the first
day, not delta), status and completed_at derived from 1 against targetValue.
A claimed row is untouched.  Otherwise, if the UTC date of the row's
updated_at equals the UTC date of NOW(), progress and completed_at are kept
(status is rederived from the current progress) and only updated_at advances;
on a new day progress gains delta once and status and completed_at follow. -/
def incDailyRow (challengeID nspace : String) (delta targetValue : Int) (now : Nat) :
    Option ProgressRow → ProgressRow
  | none =>
    { challengeID := challengeID
      nspace := nspace
      progress := 1
      status := if (1 : Int) ≥ targetValue then GoalStatus.completed else GoalStatus.inProgress
      completedAt := if (1 : Int) ≥ targetValue then some now else none
      claimedAt := none
      createdAt := now
      updatedAt := now
      isActive := true
      assignedAt := none
      expiresAt := none }
  | some r =>
    if r.status = GoalStatus.claimed then r
    else
      { r with
        progress :=
          if dateUTC r.updatedAt = dateUTC now then r.progress else r.progress + delta
        status :=
          if dateUTC r.updatedAt = dateUTC now then
            if r.progress ≥ targetValue then GoalStatus.completed else GoalStatus.inProgress
          else
            if r.progress + delta ≥ targetValue then GoalStatus.completed
            else GoalStatus.inProgress
        completedAt :=
          if dateUTC r.updatedAt = dateUTC now then r.completedAt
          else if r.progress + delta ≥ targetValue ∧ r.completedAt = none then some now
          else r.completedAt
        updatedAt := now }

/-- PostgresGoalRepository.incrementProgressDaily. -/
def incrementProgressDaily (s : Store) (userID goalID challengeID nspace : String)
    (delta targetValue : Int) (now : Nat) : Store :=
  fun q =>
    if q = (userID, goalID) then
      some (incDailyRow challengeID nspace delta targetValue now (s q))
    else s q

/-- PostgresGoalRepository.IncrementProgress dispatches on isDailyIncrement. -/
def IncrementProgress (s : Store) (userID goalID challengeID nspace : String)
    (delta targetValue : Int) (isDailyIncrement : Bool) (now : Nat) : Store :=
  if isDailyIncrement then
    incrementProgressDaily s userID goalID challengeID nspace delta targetValue now
  else
    incrementProgressRegular s userID goalID challengeID nspace delta targetValue now

/-- The scalar subqueries of the BatchIncrementProgress conflict branch:
SELECT .. FROM UNNEST(array, goal_id_array) AS u WHERE u.gid =
user_goal_progress.goal_id LIMIT 1.  The arrays are the batch in order and
the UNNEST scan yields them in order, so this is the first batch entry whose
goalID equals the conflicting row's goal_id - the entry is NOT also matched
on user_id. -/
def firstForGoal (batch : List ProgressIncrement) (goalID : String) :
    Option ProgressIncrement :=
  batch.find? fun j => j.goalID == goalID

/-- Row-level semantics of BatchIncrementProgress for the request inc.
The INSERT arm uses the request's own delta and targetValue; the DO UPDATE
arm reads delta, target_value and is_daily through the goal_id-only lookup
firstForGoal applied to the conflicting row's goal_id (= inc.goalID). -/
def batchIncMergeRow (batch : List ProgressIncrement) (now : Nat) (inc : ProgressIncrement) :
    Option ProgressRow → ProgressRow
  | none =>
    { challengeID := inc.challengeID
      nspace := inc.nspace
      progress := inc.delta
      status := if inc.delta ≥ inc.targetValue then GoalStatus.completed
                else GoalStatus.inProgress
      completedAt := if inc.delta ≥ inc.targetValue then some now else none
      claimedAt := none
      createdAt := now
      updatedAt := now
      isActive := true
      assignedAt := none
      expiresAt := none }
  | some r =>
    if r.status = GoalStatus.claimed then r
    else
      let fm := (firstForGoal batch inc.goalID).getD inc
      { r with
        progress :=
          if fm.isDailyIncrement = true ∧ dateUTC r.updatedAt = dateUTC now then r.progress
          else r.progress + fm.delta
        status :=
          if fm.isDailyIncrement = true ∧ dateUTC r.updatedAt = dateUTC now then
            if r.progress ≥ fm.targetValue then GoalStatus.completed else GoalStatus.inProgress
          else
            if r.progress + fm.delta ≥ fm.targetValue then GoalStatus.completed
            else GoalStatus.inProgress
        completedAt :=
          if fm.isDailyIncrement = true ∧ dateUTC r.updatedAt = dateUTC now then r.completedAt
          else if r.progress + fm.delta ≥ fm.targetValue ∧ r.completedAt = none then some now
          else r.completedAt
        updatedAt := now }

/-- Effect of one increment request on the store. -/
def applyBatchIncrement (batch : List ProgressIncrement) (now : Nat) (s : Store)
    (inc : ProgressIncrement) : Store :=
  fun q => if q = incKey inc then some (batchIncMergeRow batch now inc (s q)) else s q

/-- PostgresGoalRepository.BatchIncrementProgress: empty batch returns nil
without touching the store; otherwise one INSERT .. SELECT FROM UNNEST ..
ON CONFLICT DO UPDATE applies all requests; a batch containing the same
(user_id, goal_id) twice makes the single statement fail.  No size limit is
enforced (the statement always has exactly 7 array parameters). -/
def BatchIncrementProgress (s : Store) (increments : List ProgressIncrement) (now : Nat) :
    Store × Option RepoError :=
  if increments.isEmpty then (s, none)
  else if hasDupKeys (increments.map incKey) then (s, some RepoError.onConflictRowTwice)
  else (increments.foldl (applyBatchIncrement increments now) s, none)

/-- PostgresGoalRepository.MarkAsClaimed: UPDATE .. SET status = claimed,
claimed_at = NOW(), updated_at = NOW() WHERE user_id, goal_id match AND
status = completed AND claimed_at IS NULL.  rowsAffected = 0 (row missing,
wrong status, or already claimed) yields errors.ErrGoalNotCompleted and the
store is untouched. -/
def MarkAsClaimed (s : Store) (userID goalID : String) (now : Nat) :
    Store × Option RepoError :=
  match s (userID, goalID) with
  | some r =>
    if r.status = GoalStatus.completed ∧ r.claimedAt = none then
      ((fun q =>
          if q = (userID, goalID) then
            some { r with status := GoalStatus.claimed, claimedAt := some now,
                          updatedAt := now }
          else s q),
        none)
    else (s, some (RepoError.goalNotCompleted goalID))
  | none => (s, some (RepoError.goalNotCompleted goalID))

/-- PostgresGoalRepository.UpsertGoalActive: INSERT .. ON CONFLICT DO UPDATE SET
is_active = EXCLUDED.is_active, assigned_at = NOW() when activating (kept on
deactivation), updated_at = NOW().  A missing row is created from the supplied
record (progress, status, is_active, assigned_at as passed); note the conflict
arm touches neither progress nor status and is not gated on claimed. -/
def UpsertGoalActive (s : Store) (p : UserGoalProgress) (now : Nat) : Store :=
  fun q =>
    if q = upsertKey p then
      some (match s q with
        | none =>
          { challengeID := p.challengeID
            nspace := p.nspace
            progress := p.progress
            status := p.status
            completedAt := none
            claimedAt := none
            createdAt := now
            updatedAt := now
            isActive := p.isActive
            assignedAt := p.assignedAt
            expiresAt := none }
        | some r =>
          { r with isActive := p.isActive
                   assignedAt := if p.isActive then some now else r.assignedAt
                   updatedAt := now })
    else s q

section Lemmas

/-- The upsert fold only writes each tuple at its own key, so the value at a
key is the fold of the row-merge over the sub-batch addressed to that key. -/
theorem foldl_applyUpsert_apply (now : Nat) (l : List UserGoalProgress) (s : Store)
    (k : String × String) :
    l.foldl (applyUpsert now) s k =
      List.foldl (fun o u => some (upsertMergeRow now u o)) (s k)
        (l.filter fun u => upsertKey u == k) := by
  induction l generalizing s with
  | nil => rfl
  | cons u l ih =>
    rw [List.foldl_cons, ih, List.filter_cons]
    by_cases h : upsertKey u = k
    · simp only [h, beq_self_eq_true, if_true, List.foldl_cons]
      congr 1
      simp [applyUpsert, h]
    · have hb : (upsertKey u == k) = false := by
        simp [beq_eq_false_iff_ne, h]
      rw [hb]
      simp only [Bool.false_eq_true, if_false]
      congr 1
      simp only [applyUpsert]
      rw [if_neg fun hh => h hh.symm]

/-- Same projection for the staged merge fold. -/
theorem foldl_applyTempMerge_apply (now : Nat) (l : List TempProgressRow) (s : Store)
    (k : String × String) :
    l.foldl (applyTempMerge now) s k =
      List.foldl (fun o t => some (tempMergeRow now t o)) (s k)
        (l.filter fun t => (t.userID, t.goalID) == k) := by
  induction l generalizing s with
  | nil => rfl
  | cons t l ih =>
    rw [List.foldl_cons, ih, List.filter_cons]
    by_cases h : (t.userID, t.goalID) = k
    · simp only [h, beq_self_eq_true, if_true, List.foldl_cons]
      congr 1
      simp [applyTempMerge, h]
    · have hb : (((t.userID, t.goalID) : String × String) == k) = false := by
        simp [beq_eq_false_iff_ne, h]
      rw [hb]
      simp only [Bool.false_eq_true, if_false]
      congr 1
      simp only [applyTempMerge]
      rw [if_neg fun hh => h hh.symm]

/-- Same projection for the batch increment fold. -/
theorem foldl_applyBatchIncrement_apply (batch : List ProgressIncrement) (now : Nat)
    (l : List ProgressIncrement) (s : Store) (k : String × String) :
    l.foldl (applyBatchIncrement batch now) s k =
      List.foldl (fun o i => some (batchIncMergeRow batch now i o)) (s k)
        (l.filter fun i => incKey i == k) := by
  induction l generalizing s with
  | nil => rfl
  | cons i l ih =>
    rw [List.foldl_cons, ih, List.filter_cons]
    by_cases h : incKey i = k
    · simp only [h, beq_self_eq_true, if_true, List.foldl_cons]
      congr 1
      simp [applyBatchIncrement, h]
    · have hb : (incKey i == k) = false := by
        simp [beq_eq_false_iff_ne, h]
      rw [hb]
      simp only [Bool.false_eq_true, if_false]
      congr 1
      simp only [applyBatchIncrement]
      rw [if_neg fun hh => h hh.symm]

/-- The upsert merge leaves a claimed row untouched. -/
theorem upsertMergeRow_claimed (now : Nat) (u : UserGoalProgress) (r : ProgressRow)
    (h : r.status = GoalStatus.claimed) : upsertMergeRow now u (some r) = r := by
  simp [upsertMergeRow, h]

/-- The staged merge leaves a claimed row untouched. -/
theorem tempMergeRow_claimed (now : Nat) (t : TempProgressRow) (r : ProgressRow)
    (h : r.status = GoalStatus.claimed) : tempMergeRow now t (some r) = r := by
  simp [tempMergeRow, h]

/-- The batch increment merge leaves a claimed row untouched. -/
theorem batchIncMergeRow_claimed (batch : List ProgressIncrement) (now : Nat)
    (inc : ProgressIncrement) (r : ProgressRow)
    (h : r.status = GoalStatus.claimed) : batchIncMergeRow batch now inc (some r) = r := by
  simp [batchIncMergeRow, h]

/-- A claimed row survives any upsert sub-batch unchanged. -/
theorem foldl_upsertMergeRow_claimed (now : Nat) (l : List UserGoalProgress)
    (r : ProgressRow) (h : r.status = GoalStatus.claimed) :
    List.foldl (fun o u => some (upsertMergeRow now u o)) (some r) l = some r := by
  induction l with
  | nil => rfl
  | cons u l ih => rw [List.foldl_cons, upsertMergeRow_claimed now u r h]; exact ih

/-- A claimed row survives any staged merge sub-batch unchanged. -/
theorem foldl_tempMergeRow_claimed (now : Nat) (l : List TempProgressRow)
    (r : ProgressRow) (h : r.status = GoalStatus.claimed) :
    List.foldl (fun o t => some (tempMergeRow now t o)) (some r) l = some r := by
  induction l with
  | nil => rfl
  | cons t l ih => rw [List.foldl_cons, tempMergeRow_claimed now t r h]; exact ih

/-- A claimed row survives any increment sub-batch unchanged. -/
theorem foldl_batchIncMergeRow_claimed (batch : List ProgressIncrement) (now : Nat)
    (l : List ProgressIncrement) (r : ProgressRow) (h : r.status = GoalStatus.claimed) :
    List.foldl (fun o i => some (batchIncMergeRow batch now i o)) (some r) l = some r := by
  induction l with
  | nil => rfl
  | cons i l ih => rw [List.foldl_cons, batchIncMergeRow_claimed batch now i r h]; exact ih

/-- Merging a staged copy of an update behaves exactly like upserting it. -/
theorem tempMergeRow_copyToTemp (now goNow : Nat) (u : UserGoalProgress)
    (o : Option ProgressRow) :
    tempMergeRow now (copyToTemp goNow u) o = upsertMergeRow now u o := by
  cases o <;> rfl

/-- Store-level version of tempMergeRow_copyToTemp. -/
theorem applyTempMerge_copyToTemp (now goNow : Nat) (s : Store) (u : UserGoalProgress) :
    applyTempMerge now s (copyToTemp goNow u) = applyUpsert now s u := by
  funext q
  show (if q = ((copyToTemp goNow u).userID, (copyToTemp goNow u).goalID) then
      some (tempMergeRow now (copyToTemp goNow u) (s q)) else s q) =
    (if q = upsertKey u then some (upsertMergeRow now u (s q)) else s q)
  rw [tempMergeRow_copyToTemp]
  rfl

/-- Staging preserves keys. -/
theorem tempKeys (goNow : Nat) (b : List UserGoalProgress) :
    (b.map (copyToTemp goNow)).map (fun t => (t.userID, t.goalID)) = b.map upsertKey := by
  rw [List.map_map]
  rfl

/-- The multi-statement upsert and the COPY-staged upsert compute the same
store and the same error for every batch the former accepts (up to 9000
rows): same empty-batch short-circuit, same duplicate-key failure, and the
same row-by-row merge. -/
theorem batchUpsert_eq_withCOPY (s : Store) (b : List UserGoalProgress) (now : Nat)
    (h : b.length ≤ 9000) :
    BatchUpsertProgress s b now = BatchUpsertProgressWithCOPY s b now := by
  unfold BatchUpsertProgress BatchUpsertProgressWithCOPY
  cases hbe : b.isEmpty
  · have h9 : ¬ b.length > 9000 := by omega
    simp only [hbe, Bool.false_eq_true, if_false, if_neg h9]
    rw [tempKeys]
    have hfold : (b.map (copyToTemp now)).foldl (applyTempMerge now) s =
        b.foldl (applyUpsert now) s := by
      rw [List.foldl_map]
      have hfun : (fun (s2 : Store) (u : UserGoalProgress) =>
          applyTempMerge now s2 (copyToTemp now u)) = applyUpsert now := by
        funext s2 u
        exact applyTempMerge_copyToTemp now now s2 u
      rw [hfun]
    rw [hfold]
  · simp only [hbe, if_true]

/-- With an accepted size and no duplicate key, BatchUpsertProgress succeeds
and folds the merge over the batch (an empty batch folds to the store itself). -/
theorem batchUpsertProgress_ok (s : Store) (b : List UserGoalProgress) (now : Nat)
    (hlen : b.length ≤ 9000) (hnd : hasDupKeys (b.map upsertKey) = false) :
    BatchUpsertProgress s b now = (b.foldl (applyUpsert now) s, none) := by
  unfold BatchUpsertProgress
  cases hbe : b.isEmpty
  · have h9 : ¬ b.length > 9000 := by omega
    simp [hbe, h9, hnd]
  · have hnil : b = [] := List.isEmpty_iff.mp hbe
    subst hnil
    simp

/-- With no duplicate key, BatchIncrementProgress succeeds and folds the merge
over the batch. -/
theorem batchIncrementProgress_ok (s : Store) (bi : List ProgressIncrement) (now : Nat)
    (hnd : hasDupKeys (bi.map incKey) = false) :
    BatchIncrementProgress s bi now = (bi.foldl (applyBatchIncrement bi now) s, none) := by
  unfold BatchIncrementProgress
  cases hbe : bi.isEmpty
  · simp [hbe, hnd]
  · have hnil : bi = [] := List.isEmpty_iff.mp hbe
    subst hnil
    simp

/-- A singleton key list has no duplicate. -/
theorem hasDupKeys_singleton (k : String × String) : hasDupKeys [k] = false := rfl

/-- A singleton increment batch succeeds and its store is the one-row merge. -/
theorem batchIncrement_singleton_apply (s : Store) (inc : ProgressIncrement) (now : Nat) :
    (BatchIncrementProgress s [inc] now).1 (incKey inc)
      = some (batchIncMergeRow [inc] now inc (s (incKey inc))) := by
  show applyBatchIncrement [inc] now s inc (incKey inc) = _
  unfold applyBatchIncrement
  rw [if_pos rfl]

/-- In a singleton batch the goal-id lookup returns the request itself. -/
theorem firstForGoal_singleton (inc : ProgressIncrement) :
    firstForGoal [inc] inc.goalID = some inc := by
  unfold firstForGoal
  exact List.find?_cons_of_pos _ (by simp)

/-- The batch increment merge never writes the claimed status. -/
theorem batchIncMergeRow_not_claimed (batch : List ProgressIncrement) (now : Nat)
    (inc : ProgressIncrement) (r : ProgressRow) (hne : r.status ≠ GoalStatus.claimed) :
    (batchIncMergeRow batch now inc (some r)).status ≠ GoalStatus.claimed := by
  simp only [batchIncMergeRow]
  rw [if_neg hne]
  split_ifs <;> simp

/-- The batch increment merge always refreshes updated_at. -/
theorem batchIncMergeRow_updatedAt (batch : List ProgressIncrement) (now : Nat)
    (inc : ProgressIncrement) (r : ProgressRow) (hne : r.status ≠ GoalStatus.claimed) :
    (batchIncMergeRow batch now inc (some r)).updatedAt = now := by
  simp only [batchIncMergeRow]
  rw [if_neg hne]

/-- Daily same-day branch of a singleton batch increment: progress and
completed_at are kept, status is rederived from the current progress, and
only updated_at advances. -/
theorem batchIncMergeRow_daily_sameDay (inc : ProgressIncrement) (now : Nat)
    (r : ProgressRow) (hne : r.status ≠ GoalStatus.claimed)
    (hd : inc.isDailyIncrement = true)
    (hdate : dateUTC r.updatedAt = dateUTC now) :
    batchIncMergeRow [inc] now inc (some r)
      = { r with
          status := if r.progress ≥ inc.targetValue then GoalStatus.completed
                    else GoalStatus.inProgress,
          updatedAt := now } := by
  have hfm := firstForGoal_singleton inc
  simp [batchIncMergeRow, hfm, hne, hd, hdate]

/-- New-day (or non-daily) branch of a singleton batch increment: progress
gains delta once and status and completed_at are derived from it. -/
theorem batchIncMergeRow_daily_newDay (inc : ProgressIncrement) (now : Nat)
    (r : ProgressRow) (hne : r.status ≠ GoalStatus.claimed)
    (hdate : dateUTC r.updatedAt ≠ dateUTC now) :
    batchIncMergeRow [inc] now inc (some r)
      = { r with
          progress := r.progress + inc.delta,
          status := if r.progress + inc.delta ≥ inc.targetValue then GoalStatus.completed
                    else GoalStatus.inProgress,
          completedAt :=
            if r.progress + inc.delta ≥ inc.targetValue ∧ r.completedAt = none then some now
            else r.completedAt,
          updatedAt := now } := by
  have hfm := firstForGoal_singleton inc
  simp [batchIncMergeRow, hfm, hne, hdate]

/-- Equation lemma: MarkAsClaimed on a missing row fails with the single
cannot-claim error kind and changes nothing. -/
theorem markAsClaimed_none (s : Store) (userID goalID : String) (now : Nat)
    (h : s (userID, goalID) = none) :
    MarkAsClaimed s userID goalID now = (s, some (RepoError.goalNotCompleted goalID)) := by
  unfold MarkAsClaimed
  rw [h]

/-- Equation lemma: MarkAsClaimed on an existing row checks the claim
precondition. -/
theorem markAsClaimed_some (s : Store) (userID goalID : String) (now : Nat)
    (r : ProgressRow) (h : s (userID, goalID) = some r) :
    MarkAsClaimed s userID goalID now =
      (if r.status = GoalStatus.completed ∧ r.claimedAt = none then
        ((fun q => if q = (userID, goalID) then
            some { r with status := GoalStatus.claimed, claimedAt := some now,
                          updatedAt := now }
          else s q), none)
      else (s, some (RepoError.goalNotCompleted goalID))) := by
  unfold MarkAsClaimed
  rw [h]

end Lemmas

/-! Concrete records used by witnesses and counterexamples. -/

/-- A store with no rows. -/
def emptyStore : Store := fun _ => none

/-- A sample upsert tuple. -/
def sampleUpsert : UserGoalProgress :=
  { userID := "u1", goalID := "g1", challengeID := "c1", nspace := "ns",
    progress := 10, status := GoalStatus.completed, completedAt := some 100,
    isActive := true, assignedAt := none }

/-- An existing unassigned row: progress 5, in_progress, is_active = false
(the setup of the repository test that asserts the assignment gate). -/
def inactiveRow : ProgressRow :=
  { challengeID := "challenge1", nspace := "test", progress := 5,
    status := GoalStatus.inProgress, completedAt := none, claimedAt := none,
    createdAt := 0, updatedAt := 0, isActive := false, assignedAt := some 0,
    expiresAt := none }

/-- A store holding only the unassigned row at (m3-user2, m3-goal2). -/
def gateStore : Store :=
  fun q => if q = ("m3-user2", "m3-goal2") then some inactiveRow else none

/-- The event update aimed at the unassigned row. -/
def gateUpdate : UserGoalProgress :=
  { userID := "m3-user2", goalID := "m3-goal2", challengeID := "challenge1",
    nspace := "test", progress := 10, status := GoalStatus.completed,
    completedAt := none, isActive := true, assignedAt := none }

/-- The increment aimed at the unassigned row. -/
def gateInc : ProgressIncrement :=
  { userID := "m3-user2", goalID := "m3-goal2", challengeID := "challenge1",
    nspace := "test", delta := 3, targetValue := 10, isDailyIncrement := false }

/-- An existing row for user u2 on goal g, progress 0, in_progress. -/
def sharedGoalRow : ProgressRow :=
  { challengeID := "c", nspace := "ns", progress := 0,
    status := GoalStatus.inProgress, completedAt := none, claimedAt := none,
    createdAt := 0, updatedAt := 0, isActive := true, assignedAt := none,
    expiresAt := none }

/-- A store holding only (u2, g). -/
def sharedGoalStore : Store :=
  fun q => if q = ("u2", "g") then some sharedGoalRow else none

/-- Increment for user u1 on goal g with delta 1. -/
def incA : ProgressIncrement :=
  { userID := "u1", goalID := "g", challengeID := "c", nspace := "ns",
    delta := 1, targetValue := 10, isDailyIncrement := false }

/-- Increment for user u2 on the same goal g with delta 5. -/
def incB : ProgressIncrement :=
  { userID := "u2", goalID := "g", challengeID := "c", nspace := "ns",
    delta := 5, targetValue := 10, isDailyIncrement := false }

/-- A completed, not yet claimed row (completed_at = 50). -/
def completedRow : ProgressRow :=
  { challengeID := "c", nspace := "ns", progress := 10,
    status := GoalStatus.completed, completedAt := some 50, claimedAt := none,
    createdAt := 0, updatedAt := 50, isActive := true, assignedAt := none,
    expiresAt := none }

/-- A store holding only the completed row at (u1, g1). -/
def completedStore : Store :=
  fun q => if q = ("u1", "g1") then some completedRow else none

/-- An upsert tuple for (u1, g1) carrying completedAt = NULL. -/
def clearingUpdate : UserGoalProgress :=
  { userID := "u1", goalID := "g1", challengeID := "c", nspace := "ns",
    progress := 11, status := GoalStatus.inProgress, completedAt := none,
    isActive := true, assignedAt := none }

/-- A claimed row (completed_at 10, claimed_at 20). -/
def claimedRow : ProgressRow :=
  { challengeID := "c", nspace := "ns", progress := 10,
    status := GoalStatus.claimed, completedAt := some 10, claimedAt := some 20,
    createdAt := 0, updatedAt := 20, isActive := true, assignedAt := none,
    expiresAt := none }

/-- A store holding only the claimed row at (u1, g1). -/
def claimedStore : Store :=
  fun q => if q = ("u1", "g1") then some claimedRow else none

/-- An increment aimed at the claimed key. -/
def claimedInc : ProgressIncrement :=
  { userID := "u1", goalID := "g1", challengeID := "c", nspace := "ns",
    delta := 4, targetValue := 10, isDailyIncrement := false }

/-- An in-progress row last updated on UTC day 0. -/
def dailyRow : ProgressRow :=
  { challengeID := "c", nspace := "ns", progress := 3,
    status := GoalStatus.inProgress, completedAt := none, claimedAt := none,
    createdAt := 0, updatedAt := 0, isActive := true, assignedAt := none,
    expiresAt := none }

/-- A store holding only the daily row at (u1, gd). -/
def dailyStore : Store :=
  fun q => if q = ("u1", "gd") then some dailyRow else none

/-- A daily increment request for (u1, gd). -/
def dailyInc : ProgressIncrement :=
  { userID := "u1", goalID := "gd", challengeID := "c", nspace := "ns",
    delta := 2, targetValue := 10, isDailyIncrement := true }

/-! Claims. -/

/-- C10: calling BatchUpsertProgress, BatchUpsertProgressWithCOPY, or
BatchIncrementProgress with an empty collection returns success (no error)
and leaves the store unchanged. -/
theorem empty_batch_noop (s : Store) (now : Nat) :
    BatchUpsertProgress s [] now = (s, none) ∧
    BatchUpsertProgressWithCOPY s [] now = (s, none) ∧
    BatchIncrementProgress s [] now = (s, none) :=
  ⟨rfl, rfl, rfl⟩

/-- C7: for every batch of at most 9000 records and every starting store,
BatchUpsertProgress and BatchUpsertProgressWithCOPY return the same result:
the same resulting store (same inserts, same overwrites, same claimed rows
skipped) and the same error behavior. -/
theorem batchUpsert_equivalent_to_copy (s : Store) (b : List UserGoalProgress) (now : Nat)
    (h : b.length ≤ 9000) :
    BatchUpsertProgress s b now = BatchUpsertProgressWithCOPY s b now :=
  batchUpsert_eq_withCOPY s b now h

/-- Witness for C7 at a concrete one-row batch. -/
theorem batchUpsert_equivalent_to_copy_witness :
    [sampleUpsert].length ≤ 9000 ∧
    BatchUpsertProgress emptyStore [sampleUpsert] 100
      = BatchUpsertProgressWithCOPY emptyStore [sampleUpsert] 100 :=
  ⟨by decide, batchUpsert_equivalent_to_copy emptyStore [sampleUpsert] 100 (by decide)⟩

/-- C9 counterexample: a batch of 9001 rows is rejected by BatchUpsertProgress
with a batch-size error and the store is untouched, so bulk upsert does
enforce a structural upper bound. -/
theorem batchUpsert_size_counterexample :
    BatchUpsertProgress emptyStore (List.replicate 9001 sampleUpsert) 0
      = (emptyStore, some (RepoError.batchSizeExceeded 9001)) := by
  have hlen : (List.replicate 9001 sampleUpsert).length = 9001 :=
    List.length_replicate ..
  have hne : (List.replicate 9001 sampleUpsert).isEmpty = false := by
    cases hIE : (List.replicate 9001 sampleUpsert).isEmpty
    · rfl
    · have := congrArg List.length (List.isEmpty_iff.mp hIE)
      rw [hlen] at this
      simp at this
  unfold BatchUpsertProgress
  rw [hne, hlen]
  norm_num

/-- C9 amended: BatchUpsertProgress applies all supplied tuples as one atomic
statement only up to 9000 rows (the PostgreSQL parameter limit) and rejects
larger batches with an error; BatchUpsertProgressWithCOPY is the variant with
no structural size bound. -/
theorem batchUpsert_size_behavior (s : Store) (b : List UserGoalProgress) (now : Nat) :
    (b.length > 9000 →
      BatchUpsertProgress s b now = (s, some (RepoError.batchSizeExceeded b.length))) ∧
    (b.length ≤ 9000 → hasDupKeys (b.map upsertKey) = false →
      BatchUpsertProgress s b now = (b.foldl (applyUpsert now) s, none)) ∧
    (b.isEmpty = false →
      hasDupKeys ((b.map (copyToTemp now)).map fun t => (t.userID, t.goalID)) = false →
      BatchUpsertProgressWithCOPY s b now
        = ((b.map (copyToTemp now)).foldl (applyTempMerge now) s, none)) := by
  refine ⟨fun hgt => ?_, fun hle hnd => batchUpsertProgress_ok s b now hle hnd,
    fun hbe hnd => ?_⟩
  · have hne : b.isEmpty = false := by
      cases hIE : b.isEmpty
      · rfl
      · exfalso
        have hb0 : b = [] := List.isEmpty_iff.mp hIE
        rw [hb0] at hgt
        simp at hgt
    unfold BatchUpsertProgress
    simp [hne, hgt]
  · unfold BatchUpsertProgressWithCOPY
    rw [List.map_map] at hnd
    simp [hbe, hnd]

/-- Witness for C9 (amended): a one-row batch is accepted and applied. -/
theorem batchUpsert_size_behavior_witness :
    BatchUpsertProgress emptyStore [sampleUpsert] 7
      = ([sampleUpsert].foldl (applyUpsert 7) emptyStore, none) :=
  (batchUpsert_size_behavior emptyStore [sampleUpsert] 7).2.1 (by decide) (by decide)

/-- C1 (code evaluation at the failing input): the bulk paths mutate a row
whose is_active is false.  The merge statements guard only on
status != claimed, so the inactive row (progress 5, in_progress) is
overwritten to progress 10 / completed by the COPY upsert, and incremented
to 8 by the batch increment - while the claim (and the repository's own
tests) require the row to stay at progress 5. -/
theorem inactive_row_mutated_by_bulk_paths :
    (gateStore ("m3-user2", "m3-goal2")).map (fun r => (r.progress, r.isActive))
      = some (5, false) ∧
    ((BatchUpsertProgressWithCOPY gateStore [gateUpdate] 200).1
        ("m3-user2", "m3-goal2")).map (fun r => (r.progress, r.status))
      = some (10, GoalStatus.completed) ∧
    (BatchUpsertProgressWithCOPY gateStore [gateUpdate] 200).2 = none ∧
    ((BatchIncrementProgress gateStore [gateInc] 200).1
        ("m3-user2", "m3-goal2")).map (fun r => r.progress) = some 8 := by
  refine ⟨by decide, by decide, by decide, by decide⟩

/-- C5 (code evaluation at the failing input): in a batch whose two requests
have distinct keys but share goal g (user u1 with delta 1, user u2 with
delta 5), the conflict-arm subqueries match on goal_id only, so the existing
row of u2 receives the FIRST matching request's delta 1 instead of its own
request's delta 5: progress becomes 1 where the claim requires 5. -/
theorem shared_goalID_gets_wrong_delta :
    hasDupKeys ([incA, incB].map incKey) = false ∧
    (BatchIncrementProgress sharedGoalStore [incA, incB] 100).2 = none ∧
    ((BatchIncrementProgress sharedGoalStore [incA, incB] 100).1 ("u2", "g")).map
        (fun r => r.progress) = some 1 ∧
    sharedGoalRow.progress + incB.delta = 5 := by
  refine ⟨by decide, by decide, by decide, by decide⟩

/-- C6 counterexample: on a missing row, IncrementProgress with
isDailyIncrement = true and delta = 5 inserts progress 1 (the statement
hard-codes initial progress 1), not progress = delta = 5. -/
theorem daily_single_insert_counterexample :
    ((IncrementProgress emptyStore "u1" "g1" "c1" "ns" 5 10 true 100)
        ("u1", "g1")).map (fun r => r.progress) = some 1 ∧ (1 : Int) ≠ 5 := by
  refine ⟨by decide, by decide⟩

/-- C6 amended: on a missing (userID, goalID) row, BatchIncrementProgress
inserts the row with progress = delta and status / completedAt derived from
delta against targetValue, including when isDailyIncrement is true; the
single-row IncrementProgress inserts progress = delta only when
isDailyIncrement is false, and inserts progress = 1 (with status and
completedAt derived from 1) when isDailyIncrement is true. -/
theorem missing_row_insert_semantics (s : Store) (batch : List ProgressIncrement)
    (inc : ProgressIncrement) (userID goalID challengeID nspace : String)
    (delta targetValue : Int) (now : Nat)
    (hmiss : s (userID, goalID) = none) (hmiss2 : s (incKey inc) = none) :
    (batchIncMergeRow batch now inc none).progress = inc.delta ∧
    (batchIncMergeRow batch now inc none).status
      = (if inc.delta ≥ inc.targetValue then GoalStatus.completed
         else GoalStatus.inProgress) ∧
    (batchIncMergeRow batch now inc none).completedAt
      = (if inc.delta ≥ inc.targetValue then some now else none) ∧
    (BatchIncrementProgress s [inc] now).1 (incKey inc)
      = some (batchIncMergeRow [inc] now inc none) ∧
    IncrementProgress s userID goalID challengeID nspace delta targetValue false now
        (userID, goalID)
      = some (incRegularRow challengeID nspace delta targetValue now none) ∧
    (incRegularRow challengeID nspace delta targetValue now none).progress = delta ∧
    IncrementProgress s userID goalID challengeID nspace delta targetValue true now
        (userID, goalID)
      = some (incDailyRow challengeID nspace delta targetValue now none) ∧
    (incDailyRow challengeID nspace delta targetValue now none).progress = 1 := by
  refine ⟨rfl, rfl, rfl, ?_, ?_, rfl, ?_, rfl⟩
  · rw [batchIncrement_singleton_apply, hmiss2]
  · show incrementProgressRegular s userID goalID challengeID nspace delta targetValue now
        (userID, goalID) = _
    unfold incrementProgressRegular
    rw [if_pos rfl, hmiss]
  · show incrementProgressDaily s userID goalID challengeID nspace delta targetValue now
        (userID, goalID) = _
    unfold incrementProgressDaily
    rw [if_pos rfl, hmiss]

/-- Witness for C6 (amended) on the empty store. -/
theorem missing_row_insert_semantics_witness :
    IncrementProgress emptyStore "u9" "g9" "c" "ns" 5 10 true 77 ("u9", "g9")
      = some (incDailyRow "c" "ns" 5 10 77 none) ∧
    (incDailyRow "c" "ns" 5 10 77 none).progress = 1 := by
  have h := missing_row_insert_semantics emptyStore [] incA "u9" "g9" "c" "ns" 5 10 77
    rfl rfl
  exact ⟨h.2.2.2.2.2.2.1, h.2.2.2.2.2.2.2⟩

/-- C8 counterexample: a row whose completedAt is already non-null (50) has it
cleared to NULL by a bulk upsert that supplies completedAt = NULL, because the
upsert conflict arm sets completed_at = EXCLUDED.completed_at unconditionally
for non-claimed rows. -/
theorem completedAt_cleared_counterexample :
    (completedStore ("u1", "g1")).map (fun r => r.completedAt) = some (some 50) ∧
    ((BatchUpsertProgress completedStore [clearingUpdate] 60).1 ("u1", "g1")).map
        (fun r => r.completedAt) = some none := by
  refine ⟨by decide, by decide⟩

/-- C8 amended: the increment paths set completedAt only at the call where the
new progress first reaches the target and never change it once non-null, and
MarkAsClaimed never touches it; the upsert paths however overwrite completedAt
with the caller-supplied value, and can therefore change or clear it. -/
theorem completedAt_write_discipline
    (batch : List ProgressIncrement) (inc : ProgressIncrement)
    (challengeID nspace : String) (delta targetValue : Int) (now : Nat)
    (s : Store) (userID goalID : String) (now2 : Nat)
    (u : UserGoalProgress) (r : ProgressRow) (t : Nat)
    (hne : r.status ≠ GoalStatus.claimed) (hc : r.completedAt = some t) :
    (incRegularRow challengeID nspace delta targetValue now (some r)).completedAt
      = some t ∧
    (incDailyRow challengeID nspace delta targetValue now (some r)).completedAt
      = some t ∧
    (batchIncMergeRow batch now inc (some r)).completedAt = some t ∧
    ((MarkAsClaimed s userID goalID now2).1 (userID, goalID)).map (fun x => x.completedAt)
      = (s (userID, goalID)).map (fun x => x.completedAt) ∧
    (upsertMergeRow now u (some r)).completedAt = u.completedAt ∧
    (∀ r2 : ProgressRow, r2.status ≠ GoalStatus.claimed → r2.completedAt = none →
      (incRegularRow challengeID nspace delta targetValue now (some r2)).completedAt
        = (if r2.progress + delta ≥ targetValue then some now else none)) := by
  refine ⟨?_, ?_, ?_, ?_, ?_, ?_⟩
  · simp [incRegularRow, hne, hc]
  · simp [incDailyRow, hne, hc]
  · simp [batchIncMergeRow, hne, hc]
  · cases hsr : s (userID, goalID) with
    | none =>
      rw [markAsClaimed_none s userID goalID now2 hsr]
      show (s (userID, goalID)).map (fun x => x.completedAt)
        = Option.map (fun x : ProgressRow => x.completedAt) (none : Option ProgressRow)
      rw [hsr]
    | some r3 =>
      rw [markAsClaimed_some s userID goalID now2 r3 hsr]
      by_cases hpre : r3.status = GoalStatus.completed ∧ r3.claimedAt = none
      · rw [if_pos hpre]
        show (if ((userID, goalID) : String × String) = (userID, goalID) then
            some { r3 with status := GoalStatus.claimed, claimedAt := some now2,
                           updatedAt := now2 }
          else s (userID, goalID)).map (fun x => x.completedAt)
            = (some r3).map (fun x => x.completedAt)
        rw [if_pos rfl]
        rfl
      · rw [if_neg hpre]
        show (s (userID, goalID)).map (fun x => x.completedAt)
          = (some r3).map (fun x => x.completedAt)
        rw [hsr]
  · simp [upsertMergeRow, hne]
  · intro r2 h1 h2
    simp [incRegularRow, h1, h2]

/-- Witness for C8 (amended) on the completed row. -/
theorem completedAt_write_discipline_witness :
    (incRegularRow "c" "ns" 3 10 99 (some completedRow)).completedAt = some 50 ∧
    (upsertMergeRow 99 clearingUpdate (some completedRow)).completedAt
      = clearingUpdate.completedAt := by
  have h := completedAt_write_discipline [] incA "c" "ns" 3 10 99 emptyStore "u" "g" 5
    clearingUpdate completedRow 50 (by decide) rfl
  exact ⟨h.1, h.2.2.2.2.1⟩

/-- C2: rows with status claimed are immutable to all three bulk mutation
paths: the batch returns no error, the claimed row keeps its exact contents
(progress, status, completedAt and every other column), and the rest of the
batch applies exactly as if the claimed key's tuples were absent. -/
theorem claimed_rows_immutable (s : Store) (b : List UserGoalProgress)
    (bi : List ProgressIncrement) (k : String × String) (r : ProgressRow) (now : Nat)
    (hr : s k = some r) (hcl : r.status = GoalStatus.claimed)
    (hlen : b.length ≤ 9000)
    (hnd : hasDupKeys (b.map upsertKey) = false)
    (hnd2 : hasDupKeys (bi.map incKey) = false) :
    (BatchUpsertProgress s b now).2 = none ∧
    (BatchUpsertProgress s b now).1 k = some r ∧
    (BatchUpsertProgressWithCOPY s b now).2 = none ∧
    (BatchUpsertProgressWithCOPY s b now).1 k = some r ∧
    (BatchIncrementProgress s bi now).2 = none ∧
    (BatchIncrementProgress s bi now).1 k = some r ∧
    (∀ q, (BatchUpsertProgress s b now).1 q
        = (b.filter fun u => !(upsertKey u == k)).foldl (applyUpsert now) s q) := by
  have hok := batchUpsertProgress_ok s b now hlen hnd
  have hiok := batchIncrementProgress_ok s bi now hnd2
  have hcopy := (batchUpsert_eq_withCOPY s b now hlen).symm
  have hkey : b.foldl (applyUpsert now) s k = some r := by
    rw [foldl_applyUpsert_apply, hr, foldl_upsertMergeRow_claimed now _ r hcl]
  have hikey : bi.foldl (applyBatchIncrement bi now) s k = some r := by
    rw [foldl_applyBatchIncrement_apply, hr, foldl_batchIncMergeRow_claimed bi now _ r hcl]
  refine ⟨by rw [hok], by rw [hok]; exact hkey, by rw [hcopy, hok],
    by rw [hcopy, hok]; exact hkey, by rw [hiok], by rw [hiok]; exact hikey, ?_⟩
  intro q
  rw [hok]
  show b.foldl (applyUpsert now) s q
    = (b.filter fun u => !(upsertKey u == k)).foldl (applyUpsert now) s q
  rw [foldl_applyUpsert_apply, foldl_applyUpsert_apply]
  by_cases hq : q = k
  · subst hq
    rw [hr]
    rw [foldl_upsertMergeRow_claimed now _ r hcl]
    have hnilf : ((b.filter fun u => !(upsertKey u == q)).filter
        fun u => upsertKey u == q) = [] := by
      rw [List.filter_filter]
      simp
    rw [hnilf]
    rfl
  · congr 1
    rw [List.filter_filter]
    refine List.filter_congr ?_
    intro a _
    by_cases ha : upsertKey a = q
    · have hak : (upsertKey a == k) = false := by
        simp [beq_eq_false_iff_ne, ha, hq]
      simp [ha, hak, hq]
    · simp [beq_eq_false_iff_ne, ha]

/-- Witness for C2: a claimed row survives a bulk upsert and a bulk increment
aimed at its key. -/
theorem claimed_rows_immutable_witness :
    (BatchUpsertProgress claimedStore [clearingUpdate] 70).1 ("u1", "g1")
      = some claimedRow ∧
    (BatchIncrementProgress claimedStore [claimedInc] 70).1 ("u1", "g1")
      = some claimedRow := by
  have h := claimed_rows_immutable claimedStore [clearingUpdate] [claimedInc]
    ("u1", "g1") claimedRow 70 (by decide) (by decide) (by decide) (by decide) (by decide)
  exact ⟨h.2.1, h.2.2.2.2.2.1⟩

/-- C3: MarkAsClaimed succeeds exactly when the row exists with status
completed and claimed_at NULL; on success the row gets status claimed,
claimed_at = now, updated_at = now (everything else kept) and a second claim
of the same key then fails with the single cannot-claim error kind; when the
precondition fails (row missing, wrong status, or already claimed) it returns
that error kind and the store is unchanged. -/
theorem claim_workflow_spec (s : Store) (userID goalID : String) (now now2 : Nat) :
    (∀ r, s (userID, goalID) = some r → r.status = GoalStatus.completed →
      r.claimedAt = none →
      MarkAsClaimed s userID goalID now =
        ((fun q => if q = (userID, goalID) then
            some { r with status := GoalStatus.claimed, claimedAt := some now,
                          updatedAt := now }
          else s q), none) ∧
      (∀ s1, MarkAsClaimed s userID goalID now = (s1, none) →
        s1 (userID, goalID)
          = some { r with status := GoalStatus.claimed, claimedAt := some now,
                          updatedAt := now } ∧
        MarkAsClaimed s1 userID goalID now2
          = (s1, some (RepoError.goalNotCompleted goalID)))) ∧
    ((∀ r, s (userID, goalID) = some r →
        ¬(r.status = GoalStatus.completed ∧ r.claimedAt = none)) →
      MarkAsClaimed s userID goalID now
        = (s, some (RepoError.goalNotCompleted goalID))) := by
  constructor
  · intro r hr hst hcl
    have hmain : MarkAsClaimed s userID goalID now =
        ((fun q => if q = (userID, goalID) then
            some { r with status := GoalStatus.claimed, claimedAt := some now,
                          updatedAt := now }
          else s q), none) := by
      rw [markAsClaimed_some s userID goalID now r hr, if_pos ⟨hst, hcl⟩]
    refine ⟨hmain, ?_⟩
    intro s1 heq
    have hpair := hmain.symm.trans heq
    have h1 : (fun q => if q = (userID, goalID) then
        some { r with status := GoalStatus.claimed, claimedAt := some now,
                      updatedAt := now }
      else s q) = s1 := congrArg Prod.fst hpair
    have hs1 : s1 (userID, goalID)
        = some { r with status := GoalStatus.claimed, claimedAt := some now,
                        updatedAt := now } := by
      rw [← h1]
      show (if ((userID, goalID) : String × String) = (userID, goalID) then
          some { r with status := GoalStatus.claimed, claimedAt := some now,
                        updatedAt := now }
        else s (userID, goalID)) = _
      rw [if_pos rfl]
    refine ⟨hs1, ?_⟩
    rw [markAsClaimed_some s1 userID goalID now2 _ hs1]
    rw [if_neg]
    intro hh
    exact GoalStatus.noConfusion hh.1
  · intro hfail
    cases hsr : s (userID, goalID) with
    | none => exact markAsClaimed_none s userID goalID now hsr
    | some r =>
      rw [markAsClaimed_some s userID goalID now r hsr, if_neg (hfail r hsr)]

/-- Witness for C3 on a concrete completed row: the first claim succeeds, a
second claim of the already-claimed key fails with the cannot-claim error. -/
theorem claim_workflow_spec_witness :
    (MarkAsClaimed completedStore "u1" "g1" 60).2 = none ∧
    (MarkAsClaimed completedStore "u1" "g1" 60).1 ("u1", "g1")
      = some { completedRow with status := GoalStatus.claimed, claimedAt := some 60,
                                 updatedAt := 60 } ∧
    (MarkAsClaimed (MarkAsClaimed completedStore "u1" "g1" 60).1 "u1" "g1" 61).2
      = some (RepoError.goalNotCompleted "g1") := by
  have h := (claim_workflow_spec completedStore "u1" "g1" 60 61).1 completedRow
    (by decide) (by decide) (by decide)
  have h2 := h.2 (MarkAsClaimed completedStore "u1" "g1" 60).1 (by rw [h.1])
  refine ⟨by rw [h.1], h2.1, by rw [h2.2]⟩

/-- C4: for an existing non-claimed row, a daily bulk increment on the same
UTC calendar date as the row's updated_at leaves progress unchanged while
still advancing updated_at, and on a different date adds delta exactly once;
consequently two bulkIncrement calls on the same key on one UTC date produce
identical progress and a third call on the next UTC date increments exactly
once more. -/
theorem daily_increment_idempotent (s : Store) (inc : ProgressIncrement)
    (r : ProgressRow) (now1 now2 now3 : Nat)
    (hr : s (incKey inc) = some r) (hne : r.status ≠ GoalStatus.claimed)
    (hd : inc.isDailyIncrement = true) :
    (dateUTC r.updatedAt = dateUTC now1 →
      (BatchIncrementProgress s [inc] now1).1 (incKey inc)
        = some { r with
            status := if r.progress ≥ inc.targetValue then GoalStatus.completed
                      else GoalStatus.inProgress,
            updatedAt := now1 }) ∧
    (dateUTC r.updatedAt ≠ dateUTC now1 →
      ∃ r1, (BatchIncrementProgress s [inc] now1).1 (incKey inc) = some r1 ∧
        r1.progress = r.progress + inc.delta ∧ r1.updatedAt = now1) ∧
    (dateUTC now2 = dateUTC now1 → dateUTC now3 ≠ dateUTC now2 →
      ∃ r1 r2 r3,
        (BatchIncrementProgress s [inc] now1).1 (incKey inc) = some r1 ∧
        (BatchIncrementProgress (BatchIncrementProgress s [inc] now1).1 [inc] now2).1
            (incKey inc) = some r2 ∧
        r2.progress = r1.progress ∧
        (BatchIncrementProgress
            (BatchIncrementProgress (BatchIncrementProgress s [inc] now1).1 [inc] now2).1
            [inc] now3).1 (incKey inc) = some r3 ∧
        r3.progress = r2.progress + inc.delta) := by
  refine ⟨?_, ?_, ?_⟩
  · intro hdate
    rw [batchIncrement_singleton_apply, hr,
      batchIncMergeRow_daily_sameDay inc now1 r hne hd hdate]
  · intro hdate
    rw [batchIncrement_singleton_apply, hr,
      batchIncMergeRow_daily_newDay inc now1 r hne hdate]
    exact ⟨_, rfl, rfl, rfl⟩
  · intro h21 h31
    have h1 : (BatchIncrementProgress s [inc] now1).1 (incKey inc)
        = some (batchIncMergeRow [inc] now1 inc (some r)) := by
      rw [batchIncrement_singleton_apply, hr]
    have hne1 : (batchIncMergeRow [inc] now1 inc (some r)).status ≠ GoalStatus.claimed :=
      batchIncMergeRow_not_claimed [inc] now1 inc r hne
    have hup1 : (batchIncMergeRow [inc] now1 inc (some r)).updatedAt = now1 :=
      batchIncMergeRow_updatedAt [inc] now1 inc r hne
    have hdate2 : dateUTC (batchIncMergeRow [inc] now1 inc (some r)).updatedAt
        = dateUTC now2 := by
      rw [hup1, ← h21]
    have h2 : (BatchIncrementProgress (BatchIncrementProgress s [inc] now1).1
          [inc] now2).1 (incKey inc)
        = some { (batchIncMergeRow [inc] now1 inc (some r)) with
            status := if (batchIncMergeRow [inc] now1 inc (some r)).progress
                  ≥ inc.targetValue then GoalStatus.completed
                else GoalStatus.inProgress,
            updatedAt := now2 } := by
      rw [batchIncrement_singleton_apply, h1,
        batchIncMergeRow_daily_sameDay inc now2 _ hne1 hd hdate2]
    have hne2 : ({ (batchIncMergeRow [inc] now1 inc (some r)) with
        status := if (batchIncMergeRow [inc] now1 inc (some r)).progress
              ≥ inc.targetValue then GoalStatus.completed
            else GoalStatus.inProgress,
        updatedAt := now2 } : ProgressRow).status ≠ GoalStatus.claimed := by
      by_cases hc : (batchIncMergeRow [inc] now1 inc (some r)).progress ≥ inc.targetValue
      · simp [hc]
      · simp [hc]
    have hdate3 : dateUTC ({ (batchIncMergeRow [inc] now1 inc (some r)) with
        status := if (batchIncMergeRow [inc] now1 inc (some r)).progress
              ≥ inc.targetValue then GoalStatus.completed
            else GoalStatus.inProgress,
        updatedAt := now2 } : ProgressRow).updatedAt ≠ dateUTC now3 := by
      intro hh
      exact h31 hh.symm
    have h3 : (BatchIncrementProgress
          (BatchIncrementProgress (BatchIncrementProgress s [inc] now1).1 [inc] now2).1
          [inc] now3).1 (incKey inc)
        = some { ({ (batchIncMergeRow [inc] now1 inc (some r)) with
              status := if (batchIncMergeRow [inc] now1 inc (some r)).progress
                    ≥ inc.targetValue then GoalStatus.completed
                  else GoalStatus.inProgress,
              updatedAt := now2 } : ProgressRow) with
            progress := ({ (batchIncMergeRow [inc] now1 inc (some r)) with
              status := if (batchIncMergeRow [inc] now1 inc (some r)).progress
                    ≥ inc.targetValue then GoalStatus.completed
                  else GoalStatus.inProgress,
              updatedAt := now2 } : ProgressRow).progress + inc.delta,
            status := if ({ (batchIncMergeRow [inc] now1 inc (some r)) with
                  status := if (batchIncMergeRow [inc] now1 inc (some r)).progress
                        ≥ inc.targetValue then GoalStatus.completed
                      else GoalStatus.inProgress,
                  updatedAt := now2 } : ProgressRow).progress + inc.delta
                ≥ inc.targetValue then GoalStatus.completed
              else GoalStatus.inProgress,
            completedAt := if ({ (batchIncMergeRow [inc] now1 inc (some r)) with
                  status := if (batchIncMergeRow [inc] now1 inc (some r)).progress
                        ≥ inc.targetValue then GoalStatus.completed
                      else GoalStatus.inProgress,
                  updatedAt := now2 } : ProgressRow).progress + inc.delta
                  ≥ inc.targetValue ∧
                ({ (batchIncMergeRow [inc] now1 inc (some r)) with
                  status := if (batchIncMergeRow [inc] now1 inc (some r)).progress
                        ≥ inc.targetValue then GoalStatus.completed
                      else GoalStatus.inProgress,
                  updatedAt := now2 } : ProgressRow).completedAt = none then some now3
              else ({ (batchIncMergeRow [inc] now1 inc (some r)) with
                  status := if (batchIncMergeRow [inc] now1 inc (some r)).progress
                        ≥ inc.targetValue then GoalStatus.completed
                      else GoalStatus.inProgress,
                  updatedAt := now2 } : ProgressRow).completedAt,
            updatedAt := now3 } := by
      rw [batchIncrement_singleton_apply, h2,
        batchIncMergeRow_daily_newDay inc now3 _ hne2 hdate3]
    exact ⟨_, _, _, h1, h2, rfl, h3, rfl⟩

/-- Witness for C4: row updated on UTC day 0, calls on day 1, day 1 again,
and day 2. -/
theorem daily_increment_idempotent_witness :
    ∃ r1 r2 r3,
      (BatchIncrementProgress dailyStore [dailyInc] 86400).1 (incKey dailyInc)
        = some r1 ∧
      (BatchIncrementProgress (BatchIncrementProgress dailyStore [dailyInc] 86400).1
          [dailyInc] 86410).1 (incKey dailyInc) = some r2 ∧
      r2.progress = r1.progress ∧
      (BatchIncrementProgress
          (BatchIncrementProgress (BatchIncrementProgress dailyStore [dailyInc] 86400).1
            [dailyInc] 86410).1
          [dailyInc] 172800).1 (incKey dailyInc) = some r3 ∧
      r3.progress = r2.progress + dailyInc.delta :=
  (daily_increment_idempotent dailyStore dailyInc dailyRow 86400 86410 172800
    (by decide) (by decide) (by decide)).2.2 (by decide) (by decide)
